import Mathlib

/-!
Shallow embedding of `piker/ui/_position.py` (position display module).

The module tracks a trading position and renders it as a marker glyph, a
horizontal level-line and two labels.  We model the mutable Qt object graph
as an explicit state record and every method as a state transformer.  Python
code paths that raise `UnboundLocalError` (the `style` variable left
unassigned when `size == 0` in `level_marker` / `position_line`, and
`None.show()` in `show`) are modelled by returning `none`.

Numeric fields (`float` in the source) are modelled as `ℚ`; the claims under
study are about control flow and exact field equality, not rounding.
-/

namespace Piker

/-- `class Position(BaseModel)`: position snapshot.  The `symbol` and `fills`
fields are never read nor written by the operations modelled here and are
omitted. -/
structure Position where
  size : ℚ
  avg_price : ℚ
deriving Repr, DecidableEq

/-- State of a `LevelMarker` graphics item.  `style` is the glyph path
selector string (`"|<"` or `">|"`), `direction` the `_direction` attribute
set by `PositionTracker.level_marker`, `level` the `self.level` field,
`arrow_size` the construction size `floor(1.375 * font_size)`, `pen` the
color set via `setPen`/`setBrush` (absent until `position_line` sets it),
`visible` the Qt show/hide visibility flag. -/
structure LevelMarker where
  style : String
  direction : String
  level : ℚ
  arrow_size : ℤ
  pen : Option String
  visible : Bool
deriving Repr, DecidableEq

/-- State of a `LevelLine` created by the `level_line` collaborator.  The
`id` field models Python object identity (each call to `level_line` yields a
fresh object); `level` is the line's value, `color` its color, `visible` its
Qt visibility flag. -/
structure LevelLine where
  id : ℕ
  level : ℚ
  color : String
  visible : Bool
deriving Repr, DecidableEq

/-- The `BrokerdPosition` message fields read by `PositionTracker.update`. -/
structure BrokerdPosition where
  avg_price : ℚ
  size : ℚ
deriving Repr, DecidableEq

/-- Full mutable state of a `PositionTracker`: the `info` snapshot, the
`_level_marker`, the two labels (`pp_label` visibility; `size_label`
visibility and its `entry_size` field), the optional level-line `self.line`,
and a fresh-identity counter for newly built lines. -/
structure TrackerState where
  info : Position
  marker : LevelMarker
  pp_label_visible : Bool
  size_label_visible : Bool
  size_label_entry : ℚ
  line : Option LevelLine
  nextLineId : ℕ
deriving Repr, DecidableEq

/-- `LevelMarker.position_in_view`: computes the marker's new scene
position from the view's vertical range `[ymn, ymx]`, the view height, the
x anchor (`scene_x`), the glyph bounding-box height `h`, the view's
data-to-screen map `mapY` and the current `get_level()` value `level`.

Source: `if level > ymx` pin to top at `h/3`; `elif level < ymn` pin to
bottom at `view.height() - 4/3*h`; else map the level through the view. -/
def LevelMarker.position_in_view (ymn ymx viewHeight x h : ℚ)
    (mapY : ℚ → ℚ) (level : ℚ) : ℚ × ℚ :=
  if level > ymx then
    (x, h / 3)
  else if level < ymn then
    (x, viewHeight - 4/3 * h)
  else
    (x, mapY level)

namespace PositionTracker

/-- `PositionTracker.level`: the line's current value when a line exists,
else `0`.  This is the accessor handed to the marker as `get_level`. -/
def level (st : TrackerState) : ℚ :=
  match st.line with
  | some line => line.level
  | none => 0

/-- `PositionTracker.show`: only acts when `self.info.size` is truthy; then
shows the line (raising when `self.line` is `None`, modelled as `none`),
the marker and both labels. -/
def show_tracker (st : TrackerState) : Option TrackerState :=
  if st.info.size ≠ 0 then
    match st.line with
    | none => none
    | some line =>
      some { st with
        line := some { line with visible := true }
        marker := { st.marker with visible := true }
        pp_label_visible := true
        size_label_visible := true }
  else
    some st

/-- `PositionTracker.hide`: unconditionally hides `pp_label`, the marker and
`size_label`, and hides the line when one exists. -/
def hide (st : TrackerState) : TrackerState :=
  { st with
    pp_label_visible := false
    marker := { st.marker with visible := false }
    size_label_visible := false
    line := st.line.map fun l => { l with visible := false } }

/-- `PositionTracker.level_marker`: builds a fresh arrow marker sized
`floor(1.375 * font_size)`; `size > 0` selects style `"|<"` / direction
`"up"`, `size < 0` selects `">|"` / `"down"`.  With `size == 0` neither
branch assigns `style`, so constructing the marker raises
`UnboundLocalError` — modelled as `none`.  The fresh marker has `level = 0`
(set in `LevelMarker.__init__`), no pen yet, and is shown (`arrow.show()`). -/
def level_marker (fontSize : ℚ) (size : ℚ) : Option LevelMarker :=
  let arrow_size : ℤ := Int.floor (1.375 * fontSize)
  if size > 0 then
    some { style := "|<", direction := "up", level := 0,
           arrow_size := arrow_size, pen := none, visible := true }
  else if size < 0 then
    some { style := ">|", direction := "down", level := 0,
           arrow_size := arrow_size, pen := none, visible := true }
  else
    none

/-- `PositionTracker.position_line`: builds a new level-line at `level` with
the tracker's color, stores it in `self.line`, sets the marker's style from
the sign of `size` (raising `UnboundLocalError` when `size == 0`, modelled
as `none`), copies the line's color onto the marker's pen and brush, sets
the marker's level and shows the marker, and sets the line's level. -/
def position_line (size : ℚ) (level : ℚ) (st : TrackerState) :
    Option TrackerState :=
  let line : LevelLine :=
    { id := st.nextLineId, level := level,
      color := "default_light", visible := true }
  let styleOpt : Option String :=
    if size > 0 then some "|<" else if size < 0 then some ">|" else none
  styleOpt.map fun style =>
    { st with
      line := some line
      nextLineId := st.nextLineId + 1
      marker := { st.marker with
        style := style
        pen := some line.color
        level := level
        visible := true } }

/-- `PositionTracker.update_line`: the level-line state machine.  With no
stored line and truthy `size`, create a line via `position_line` and show
it; with a stored line and `size != 0.0`, set the line's level to `price`,
set the marker's level and show the line; with a stored line and zero size,
delete the line and clear the reference; otherwise do nothing. -/
def update_line (price : ℚ) (size : ℚ) (st : TrackerState) :
    Option TrackerState :=
  match st.line with
  | none =>
    if size ≠ 0 then
      (position_line size price st).map fun st2 =>
        { st2 with line := st2.line.map fun l => { l with visible := true } }
    else
      some st
  | some line =>
    if size ≠ 0 then
      some { st with
        line := some { line with level := price, visible := true }
        marker := { st.marker with level := price } }
    else
      some { st with line := none }

/-- `PositionTracker.update`: overwrite the snapshot's `avg_price` and
`size`, run `update_line`, set and re-render the size label's `entry_size`
field, then hide everything when `size == 0`, else set the marker's level
to `avg_price`, repaint the marker and show everything. -/
def update (msg : BrokerdPosition) (st : TrackerState) :
    Option TrackerState :=
  let st1 := { st with
    info := { size := msg.size, avg_price := msg.avg_price } }
  (update_line msg.avg_price msg.size st1).bind fun st2 =>
    let st3 := { st2 with size_label_entry := msg.size }
    if msg.size = 0 then
      some (hide st3)
    else
      show_tracker { st3 with
        marker := { st3.marker with level := msg.avg_price } }

/-- `PositionTracker.__init__`: a zeroed `Position`, the placeholder marker
built with `level_marker(size=1)`, `pp_label` rendered and shown,
`size_label` with `entry_size = 0` rendered and hidden, no line. -/
def init (fontSize : ℚ) : Option TrackerState :=
  (level_marker fontSize 1).map fun marker =>
    { info := { size := 0, avg_price := 0 }
      marker := marker
      pp_label_visible := true
      size_label_visible := false
      size_label_entry := 0
      line := none
      nextLineId := 0 }

/-- A freshly constructed tracker driven by a sequence of position
messages, each delivered to `update`. -/
def run (fontSize : ℚ) (msgs : List BrokerdPosition) : Option TrackerState :=
  msgs.foldl (fun acc m => acc.bind (update m)) (init fontSize)

/-- The marker's repositioning as wired by `level_marker`: the marker's
`get_level` capability is `PositionTracker.level` of the owning tracker, so
`position_in_view` reads the tracker's live line level. -/
def marker_position_in_view (st : TrackerState)
    (ymn ymx viewHeight x h : ℚ) (mapY : ℚ → ℚ) : ℚ × ℚ :=
  LevelMarker.position_in_view ymn ymx viewHeight x h mapY (level st)

end PositionTracker

/-! Concrete states used as theorem inputs. -/

/-- The state of a tracker constructed with font pixel size 8. -/
def stInit8 : TrackerState :=
  { info := { size := 0, avg_price := 0 }
    marker := { style := "|<", direction := "up", level := 0,
                arrow_size := Int.floor ((1.375 : ℚ) * 8),
                pen := none, visible := true }
    pp_label_visible := true
    size_label_visible := false
    size_label_entry := 0
    line := none
    nextLineId := 0 }

/-- The state after construction (font size 8) and one update with
`avg_price = 100`, `size = 5`. -/
def stRun1 : TrackerState :=
  { info := { size := 5, avg_price := 100 }
    marker := { style := "|<", direction := "up", level := 100,
                arrow_size := Int.floor ((1.375 : ℚ) * 8),
                pen := some "default_light", visible := true }
    pp_label_visible := true
    size_label_visible := true
    size_label_entry := 5
    line := some { id := 0, level := 100, color := "default_light",
                   visible := true }
    nextLineId := 1 }

/-- The state after construction (font size 8) and one update with
`avg_price = 7`, `size = 0`. -/
def stZeroRun : TrackerState :=
  { info := { size := 0, avg_price := 7 }
    marker := { style := "|<", direction := "up", level := 0,
                arrow_size := Int.floor ((1.375 : ℚ) * 8),
                pen := none, visible := false }
    pp_label_visible := false
    size_label_visible := false
    size_label_entry := 0
    line := none
    nextLineId := 0 }

/-- A sample flat tracker state with no level-line. -/
def sampleNoLine : TrackerState :=
  { info := { size := 0, avg_price := 0 }
    marker := { style := "|<", direction := "up", level := 0,
                arrow_size := 11, pen := none, visible := false }
    pp_label_visible := false
    size_label_visible := false
    size_label_entry := 0
    line := none
    nextLineId := 0 }

/-- A sample tracker state holding a level-line at level 7 with size 2. -/
def sampleWithLine : TrackerState :=
  { info := { size := 2, avg_price := 7 }
    marker := { style := "|<", direction := "up", level := 7,
                arrow_size := 11, pen := some "default_light",
                visible := true }
    pp_label_visible := true
    size_label_visible := true
    size_label_entry := 2
    line := some { id := 0, level := 7, color := "default_light",
                   visible := true }
    nextLineId := 1 }

namespace PositionTracker

/-! Shape lemmas: the exact post-state of `update` in each of its three
control-flow cases, and totality of a message run. -/

/-- The constructed tracker state, explicitly. -/
theorem init_eq (fontSize : ℚ) :
    init fontSize = some
      { info := { size := 0, avg_price := 0 }
        marker := { style := "|<", direction := "up", level := 0,
                    arrow_size := Int.floor (1.375 * fontSize),
                    pen := none, visible := true }
        pp_label_visible := true
        size_label_visible := false
        size_label_entry := 0
        line := none
        nextLineId := 0 } := by
  simp [init, level_marker]

/-- Post-state of `update` for a zero-size message: snapshot overwritten,
entry-size field set, everything hidden, line deleted. -/
theorem update_size_zero (m : BrokerdPosition) (st : TrackerState)
    (hz : m.size = 0) :
    update m st = some
      { st with
        info := { size := m.size, avg_price := m.avg_price }
        size_label_entry := m.size
        pp_label_visible := false
        size_label_visible := false
        marker := { st.marker with visible := false }
        line := none } := by
  rcases st with ⟨info, marker, ppv, slv, sle, line, nid⟩
  rcases line with _ | l <;>
    simp [update, update_line, hide, hz]

/-- Post-state of `update` for a nonzero-size message when no line exists:
a fresh line is created at `avg_price`, the marker restyled by the sign of
`size`, leveled at `avg_price` and shown, and everything made visible. -/
theorem update_size_ne_none (m : BrokerdPosition) (st : TrackerState)
    (hs : m.size ≠ 0) (hl : st.line = none) :
    update m st = some
      { st with
        info := { size := m.size, avg_price := m.avg_price }
        line := some { id := st.nextLineId, level := m.avg_price,
                       color := "default_light", visible := true }
        nextLineId := st.nextLineId + 1
        marker := { st.marker with
          style := if m.size > 0 then "|<" else ">|"
          pen := some "default_light"
          level := m.avg_price
          visible := true }
        pp_label_visible := true
        size_label_visible := true
        size_label_entry := m.size } := by
  rcases st with ⟨info, marker, ppv, slv, sle, line, nid⟩
  cases hl
  rcases lt_trichotomy m.size 0 with hneg | h0 | hpos
  · simp [update, update_line, position_line, show_tracker, hs,
          hneg, not_lt.mpr hneg.le]
  · exact absurd h0 hs
  · simp [update, update_line, position_line, show_tracker, hs, hpos]

/-- Post-state of `update` for a nonzero-size message when a line exists:
the same line object is releveled at `avg_price` and shown, the marker
releveled and shown, and everything made visible. -/
theorem update_size_ne_some (m : BrokerdPosition) (st : TrackerState)
    (l : LevelLine) (hs : m.size ≠ 0) (hl : st.line = some l) :
    update m st = some
      { st with
        info := { size := m.size, avg_price := m.avg_price }
        line := some { l with level := m.avg_price, visible := true }
        marker := { st.marker with level := m.avg_price, visible := true }
        pp_label_visible := true
        size_label_visible := true
        size_label_entry := m.size } := by
  rcases st with ⟨info, marker, ppv, slv, sle, line, nid⟩
  cases hl
  simp [update, update_line, show_tracker, hs]

/-- `update` never raises: every message is handled. -/
theorem update_isSome (m : BrokerdPosition) (st : TrackerState) :
    (update m st).isSome = true := by
  by_cases hz : m.size = 0
  · rw [update_size_zero m st hz]; rfl
  · rcases hl : st.line with _ | l
    · rw [update_size_ne_none m st hz hl]; rfl
    · rw [update_size_ne_some m st l hz hl]; rfl

/-- A run splits at its last message. -/
theorem run_append (fontSize : ℚ) (msgs : List BrokerdPosition)
    (m : BrokerdPosition) :
    run fontSize (msgs ++ [m]) = (run fontSize msgs).bind (update m) := by
  simp [run, List.foldl_append]

/-- Folding updates over an alive tracker keeps it alive. -/
theorem foldl_update_isSome (msgs : List BrokerdPosition)
    (acc : Option TrackerState) (h : acc.isSome = true) :
    (msgs.foldl (fun acc m => acc.bind (update m)) acc).isSome = true := by
  induction msgs generalizing acc with
  | nil => exact h
  | cons m rest ih =>
    rcases acc with _ | st
    · simp at h
    · exact ih _ (by simpa using update_isSome m st)

/-- Delivering the same message twice is the same as delivering it once. -/
theorem update_idem (m : BrokerdPosition) (st : TrackerState) :
    (update m st).bind (update m) = update m st := by
  rcases st with ⟨info, marker, ppv, slv, sle, line, nid⟩
  by_cases hz : m.size = 0
  · rw [update_size_zero m _ hz, Option.some_bind, update_size_zero m _ hz]
  · rcases line with _ | l
    · rw [update_size_ne_none m _ hz rfl, Option.some_bind,
          update_size_ne_some m _ _ hz rfl]
    · rw [update_size_ne_some m _ l hz rfl, Option.some_bind,
          update_size_ne_some m _ _ hz rfl]

end PositionTracker

/-- Claim C1: for every sequence of `update` calls starting from a freshly
constructed tracker, after each call the level-line exists iff the updated
size is nonzero, and whenever the line exists both the line's level and the
marker's level equal the `avg_price` of the most recent update. -/
theorem claim_C1 (fontSize : ℚ) (msgs : List BrokerdPosition)
    (st : TrackerState) (h : PositionTracker.run fontSize msgs = some st) :
    (st.line.isSome ↔ st.info.size ≠ 0) ∧
    ∀ l, st.line = some l →
      l.level = st.info.avg_price ∧ st.marker.level = st.info.avg_price := by
  rcases List.eq_nil_or_concat msgs with rfl | ⟨msgs', m, rfl⟩
  · rw [PositionTracker.run, List.foldl_nil, PositionTracker.init_eq] at h
    cases h
    simp
  · rw [List.concat_eq_append, PositionTracker.run_append] at h
    rcases hr : PositionTracker.run fontSize msgs' with _ | stp <;> rw [hr] at h
    · cases h
    · rw [Option.some_bind] at h
      by_cases hz : m.size = 0
      · rw [PositionTracker.update_size_zero m stp hz] at h
        cases h
        simp [hz]
      · rcases hl : stp.line with _ | l
        · rw [PositionTracker.update_size_ne_none m stp hz hl] at h
          cases h
          simp [hz]
        · rw [PositionTracker.update_size_ne_some m stp l hz hl] at h
          cases h
          simp [hz]

/-- Witness for C1: the run `[⟨avg_price 100, size 5⟩]` from a fresh tracker
(font size 8) reaches `stRun1`, where the equivalence and the level equality
are concrete. -/
theorem claim_C1_witness :
    (stRun1.line.isSome ↔ stRun1.info.size ≠ 0) ∧
    ((⟨0, 100, "default_light", true⟩ : LevelLine).level = stRun1.info.avg_price ∧
      stRun1.marker.level = stRun1.info.avg_price) :=
  ⟨(claim_C1 8 [⟨100, 5⟩] stRun1 rfl).1,
   (claim_C1 8 [⟨100, 5⟩] stRun1 rfl).2 _ rfl⟩

/-- Claim C2: `update_line` implements exactly the four-transition state
machine: no-line and nonzero size creates exactly one fresh line at the
given price (restyling and releveling the marker); line-active and zero
size deletes the line and clears the reference; line-active and nonzero
size keeps the same line object, moving its level (and the marker's level)
and showing it; no-line and zero size changes nothing. -/
theorem claim_C2 (price size : ℚ) (st : TrackerState) :
    (st.line = none → size ≠ 0 →
      PositionTracker.update_line price size st = some
        { st with
          line := some { id := st.nextLineId, level := price,
                         color := "default_light", visible := true }
          nextLineId := st.nextLineId + 1
          marker := { st.marker with
            style := if size > 0 then "|<" else ">|"
            pen := some "default_light"
            level := price
            visible := true } }) ∧
    (∀ l, st.line = some l → size = 0 →
      PositionTracker.update_line price size st =
        some { st with line := none }) ∧
    (∀ l, st.line = some l → size ≠ 0 →
      PositionTracker.update_line price size st = some
        { st with
          line := some { l with level := price, visible := true }
          marker := { st.marker with level := price } }) ∧
    (st.line = none → size = 0 →
      PositionTracker.update_line price size st = some st) := by
  obtain ⟨info, marker, ppv, slv, sle, line, nid⟩ := st
  refine ⟨fun hl hs => ?_, fun l hl hz => ?_, fun l hl hs => ?_,
          fun hl hz => ?_⟩
  · cases hl
    rcases lt_trichotomy size 0 with hneg | h0 | hpos
    · simp [PositionTracker.update_line, PositionTracker.position_line,
            hs, hneg, not_lt.mpr hneg.le]
    · exact absurd h0 hs
    · simp [PositionTracker.update_line, PositionTracker.position_line,
            hs, hpos]
  · cases hl
    simp [PositionTracker.update_line, hz]
  · cases hl
    simp [PositionTracker.update_line, hs]
  · cases hl
    simp [PositionTracker.update_line, hz]

/-- Witness for C2: all four transitions exercised concretely at price 7,
sizes 2 and 0, from `sampleNoLine` and `sampleWithLine`. -/
theorem claim_C2_witness :
    (PositionTracker.update_line 7 2 sampleNoLine = some
      { sampleNoLine with
        line := some { id := sampleNoLine.nextLineId, level := 7,
                       color := "default_light", visible := true }
        nextLineId := sampleNoLine.nextLineId + 1
        marker := { sampleNoLine.marker with
          style := if (2 : ℚ) > 0 then "|<" else ">|"
          pen := some "default_light"
          level := 7
          visible := true } }) ∧
    (PositionTracker.update_line 7 0 sampleWithLine =
      some { sampleWithLine with line := none }) ∧
    (PositionTracker.update_line 9 2 sampleWithLine = some
      { sampleWithLine with
        line := some { id := 0, level := 9, color := "default_light",
                       visible := true }
        marker := { sampleWithLine.marker with level := 9 } }) ∧
    (PositionTracker.update_line 7 0 sampleNoLine = some sampleNoLine) :=
  ⟨(claim_C2 7 2 sampleNoLine).1 rfl (by norm_num),
   (claim_C2 7 0 sampleWithLine).2.1 _ rfl rfl,
   (claim_C2 9 2 sampleWithLine).2.2.1 _ rfl (by norm_num),
   (claim_C2 7 0 sampleNoLine).2.2.2 rfl rfl⟩

/-- Claim C3: with a visible vertical range `[ymn, ymx]`,
`position_in_view` pins the marker at `y = h/3` when the level exceeds
`ymx`, at `y = viewHeight - 4/3*h` when the level is below `ymn`, and at
the exact viewport-mapped screen position otherwise. -/
theorem claim_C3 (ymn ymx viewHeight x h : ℚ) (mapY : ℚ → ℚ) (L : ℚ)
    (hr : ymn ≤ ymx) :
    (L > ymx →
      LevelMarker.position_in_view ymn ymx viewHeight x h mapY L
        = (x, h / 3)) ∧
    (L < ymn →
      LevelMarker.position_in_view ymn ymx viewHeight x h mapY L
        = (x, viewHeight - 4/3 * h)) ∧
    (ymn ≤ L → L ≤ ymx →
      LevelMarker.position_in_view ymn ymx viewHeight x h mapY L
        = (x, mapY L)) := by
  refine ⟨fun hgt => ?_, fun hlt => ?_, fun h1 h2 => ?_⟩
  · simp [LevelMarker.position_in_view, hgt]
  · have hngt : ¬ L > ymx := not_lt.mpr (hlt.le.trans hr)
    simp [LevelMarker.position_in_view, hngt, hlt]
  · simp [LevelMarker.position_in_view, not_lt.mpr h2, not_lt.mpr h1]

/-- Witness for C3: the spec's concrete instances with `ymn = 10`,
`ymx = 100`, view height `500`, glyph height `3`: level `150` is
top-pinned, level `5` bottom-pinned, level `50` exactly mapped. -/
theorem claim_C3_witness :
    (LevelMarker.position_in_view 10 100 500 0 3 id 150 = (0, 3 / 3)) ∧
    (LevelMarker.position_in_view 10 100 500 0 3 id 5 = (0, 500 - 4/3 * 3)) ∧
    (LevelMarker.position_in_view 10 100 500 0 3 id 50 = (0, id 50)) :=
  ⟨(claim_C3 10 100 500 0 3 id 150 (by norm_num)).1 (by norm_num),
   (claim_C3 10 100 500 0 3 id 5 (by norm_num)).2.1 (by norm_num),
   (claim_C3 10 100 500 0 3 id 50 (by norm_num)).2.2 (by norm_num) (by norm_num)⟩

/-- Claim C4 (amended): after any `update` call that leaves the size zero,
the marker and both labels are hidden and no level-line exists; immediately
after construction the size is zero and no level-line exists, and the
marker is present — but it is shown, not hidden (as is `pp_label`), since
`level_marker` ends with `arrow.show()`. -/
theorem claim_C4 :
    (∀ fontSize : ℚ, ∀ msgs : List BrokerdPosition, ∀ m : BrokerdPosition,
      ∀ st : TrackerState,
      PositionTracker.run fontSize (msgs ++ [m]) = some st →
      st.info.size = 0 →
      st.marker.visible = false ∧ st.line = none ∧
        st.pp_label_visible = false ∧ st.size_label_visible = false) ∧
    (∀ fontSize : ℚ, ∀ st : TrackerState,
      PositionTracker.init fontSize = some st →
      st.info.size = 0 ∧ st.line = none ∧ st.marker.visible = true ∧
        st.pp_label_visible = true ∧ st.size_label_visible = false) := by
  constructor
  · intro fontSize msgs m st h hz
    rw [PositionTracker.run_append] at h
    rcases hr : PositionTracker.run fontSize msgs with _ | stp <;> rw [hr] at h
    · cases h
    · rw [Option.some_bind] at h
      by_cases hm : m.size = 0
      · rw [PositionTracker.update_size_zero m stp hm] at h
        cases h
        simp
      · exfalso
        rcases hl : stp.line with _ | l
        · rw [PositionTracker.update_size_ne_none m stp hm hl] at h
          cases h
          exact hm hz
        · rw [PositionTracker.update_size_ne_some m stp l hm hl] at h
          cases h
          exact hm hz
  · intro fontSize st h
    rw [PositionTracker.init_eq] at h
    cases h
    simp

/-- Counterexample to C4 as stated: immediately after construction (font
size 8) the size is zero and no line exists, yet the marker is visible —
not hidden as the claim requires. -/
theorem claim_C4_counterexample :
    ∃ st, PositionTracker.init 8 = some st ∧ st.info.size = 0 ∧
      st.line = none ∧ st.marker.visible = true :=
  ⟨stInit8, rfl, rfl, rfl, rfl⟩

/-- Witness for C4: the zero-size update run `[⟨avg_price 7, size 0⟩]`
reaches `stZeroRun` with everything hidden and no line, and the
constructed state `stInit8` has zero size, no line and a visible marker. -/
theorem claim_C4_witness :
    (stZeroRun.marker.visible = false ∧ stZeroRun.line = none ∧
      stZeroRun.pp_label_visible = false ∧
      stZeroRun.size_label_visible = false) ∧
    (stInit8.info.size = 0 ∧ stInit8.line = none ∧
      stInit8.marker.visible = true ∧ stInit8.pp_label_visible = true ∧
      stInit8.size_label_visible = false) :=
  ⟨claim_C4.1 8 [] ⟨7, 0⟩ stZeroRun rfl rfl, claim_C4.2 8 stInit8 rfl⟩

/-- Claim C5: `update` is idempotent — delivering the same
`(avg_price, size)` message twice in a row from any reachable state leaves
the tracker state identical to delivering it once (in particular no second
line object is created). -/
theorem claim_C5 (fontSize : ℚ) (msgs : List BrokerdPosition)
    (m : BrokerdPosition) :
    PositionTracker.run fontSize (msgs ++ [m, m]) =
      PositionTracker.run fontSize (msgs ++ [m]) := by
  have h2 : msgs ++ [m, m] = (msgs ++ [m]) ++ [m] := by simp
  rw [h2, PositionTracker.run_append, PositionTracker.run_append]
  rcases hr : PositionTracker.run fontSize msgs with _ | st
  · rfl
  · rw [Option.some_bind]
    exact PositionTracker.update_idem m st

/-- Claim C6 (amended): `level_marker` chooses the glyph from the sign of
`size` — positive builds the `"|<"`/`"up"` marker, negative the
`">|"`/`"down"` marker, each sized `floor(1.375 * font_pixel_size)` and
shown; for `size == 0` neither branch assigns the local `style`, so the
call raises instead of building a marker. -/
theorem claim_C6 (fontSize size : ℚ) :
    (size > 0 → PositionTracker.level_marker fontSize size = some
      { style := "|<", direction := "up", level := 0,
        arrow_size := Int.floor (1.375 * fontSize), pen := none,
        visible := true }) ∧
    (size < 0 → PositionTracker.level_marker fontSize size = some
      { style := ">|", direction := "down", level := 0,
        arrow_size := Int.floor (1.375 * fontSize), pen := none,
        visible := true }) ∧
    (size = 0 → PositionTracker.level_marker fontSize size = none) := by
  refine ⟨fun hpos => ?_, fun hneg => ?_, fun hz => ?_⟩
  · simp [PositionTracker.level_marker, hpos]
  · simp [PositionTracker.level_marker, hneg, not_lt.mpr hneg.le]
  · simp [PositionTracker.level_marker, hz]

/-- Counterexample to C6 as stated: at `size == 0`, `level_marker` does not
build any marker — the unassigned `style` local raises before construction
(modelled as `none`). -/
theorem claim_C6_counterexample :
    ¬ ∃ marker, PositionTracker.level_marker 8 0 = some marker := by
  simp [PositionTracker.level_marker]

/-- Witness for C6 at font size 8 and sizes 5, -5 and 0. -/
theorem claim_C6_witness :
    (PositionTracker.level_marker 8 5 = some
      { style := "|<", direction := "up", level := 0,
        arrow_size := Int.floor ((1.375 : ℚ) * 8), pen := none,
        visible := true }) ∧
    (PositionTracker.level_marker 8 (-5) = some
      { style := ">|", direction := "down", level := 0,
        arrow_size := Int.floor ((1.375 : ℚ) * 8), pen := none,
        visible := true }) ∧
    PositionTracker.level_marker 8 0 = none :=
  ⟨(claim_C6 8 5).1 (by norm_num), (claim_C6 8 (-5)).2.1 (by norm_num),
   (claim_C6 8 0).2.2 rfl⟩

/-- Claim C7: `show` with zero size is a no-op — no visibility changes;
with nonzero size (and a line present) it makes the line, the marker,
`pp_label` and `size_label` visible. -/
theorem claim_C7 (st : TrackerState) :
    (st.info.size = 0 → PositionTracker.show_tracker st = some st) ∧
    (∀ l, st.info.size ≠ 0 → st.line = some l →
      PositionTracker.show_tracker st = some
        { st with
          line := some { l with visible := true }
          marker := { st.marker with visible := true }
          pp_label_visible := true
          size_label_visible := true }) := by
  obtain ⟨info, marker, ppv, slv, sle, line, nid⟩ := st
  refine ⟨fun hz => ?_, fun l hs hl => ?_⟩
  · have hz' : info.size = 0 := hz
    simp [PositionTracker.show_tracker, hz']
  · cases hl
    have hs' : info.size ≠ 0 := hs
    simp [PositionTracker.show_tracker, hs']

/-- Witness for C7: `show` on the flat `sampleNoLine` changes nothing;
`show` on `sampleWithLine` (size 2) makes every item visible. -/
theorem claim_C7_witness :
    (PositionTracker.show_tracker sampleNoLine = some sampleNoLine) ∧
    (PositionTracker.show_tracker sampleWithLine = some
      { sampleWithLine with
        line := some { id := 0, level := 7, color := "default_light",
                       visible := true }
        marker := { sampleWithLine.marker with visible := true }
        pp_label_visible := true
        size_label_visible := true }) :=
  ⟨(claim_C7 sampleNoLine).1 rfl,
   (claim_C7 sampleWithLine).2 _ (by decide) rfl⟩

/-- Claim C8: `hide` always hides the marker, `pp_label` and `size_label`,
and hides the level-line whenever one exists, regardless of size. -/
theorem claim_C8 (st : TrackerState) :
    (PositionTracker.hide st).marker.visible = false ∧
    (PositionTracker.hide st).pp_label_visible = false ∧
    (PositionTracker.hide st).size_label_visible = false ∧
    (PositionTracker.hide st).line
      = st.line.map fun l => { l with visible := false } := by
  obtain ⟨info, marker, ppv, slv, sle, line, nid⟩ := st
  simp [PositionTracker.hide]

/-- Claim C9: `level()` returns the line's current level when a line
exists and 0 otherwise, and — being the `get_level` capability wired into
the marker — every marker repositioning reads this live value: overwriting
the marker's stored `level` field does not change where
`position_in_view` places it. -/
theorem claim_C9 (st : TrackerState) :
    (∀ l, st.line = some l → PositionTracker.level st = l.level) ∧
    (st.line = none → PositionTracker.level st = 0) ∧
    (∀ ymn ymx viewHeight x h : ℚ, ∀ mapY : ℚ → ℚ, ∀ v : ℚ,
      PositionTracker.marker_position_in_view
          { st with marker := { st.marker with level := v } }
          ymn ymx viewHeight x h mapY
        = LevelMarker.position_in_view ymn ymx viewHeight x h mapY
            (PositionTracker.level st)) := by
  obtain ⟨info, marker, ppv, slv, sle, line, nid⟩ := st
  refine ⟨fun l hl => ?_, fun hl => ?_, fun ymn ymx vh x h mapY v => ?_⟩
  · cases hl
    simp [PositionTracker.level]
  · cases hl
    simp [PositionTracker.level]
  · rfl

/-- Witness for C9: the accessor reads 7 from `sampleWithLine`'s line and
0 from the line-less `sampleNoLine`, and repositioning ignores a stale
marker level of 999. -/
theorem claim_C9_witness :
    (PositionTracker.level sampleWithLine =
      (⟨0, 7, "default_light", true⟩ : LevelLine).level) ∧
    (PositionTracker.level sampleNoLine = 0) ∧
    (PositionTracker.marker_position_in_view
        { sampleWithLine with
          marker := { sampleWithLine.marker with level := 999 } }
        10 100 500 0 3 id
      = LevelMarker.position_in_view 10 100 500 0 3 id
          (PositionTracker.level sampleWithLine)) :=
  ⟨(claim_C9 sampleWithLine).1 _ rfl, (claim_C9 sampleNoLine).2.1 rfl,
   (claim_C9 sampleWithLine).2.2 10 100 500 0 3 id 999⟩

/-- Claim C10: under the update protocol the unassigned-`style` code paths
are unreachable — `update_line` only calls `position_line` with truthy
size and construction only calls `level_marker` with size 1 — so every
message run from a fresh tracker completes without raising. -/
theorem claim_C10 (fontSize : ℚ) (msgs : List BrokerdPosition) :
    (PositionTracker.run fontSize msgs).isSome = true := by
  refine PositionTracker.foldl_update_isSome msgs _ ?_
  rw [PositionTracker.init_eq]
  rfl

end Piker
